import Mathlib

/-!
Shallow embedding of the client-side realtime synchronization layer of a
collaborative document application: the websocket event handlers that keep
in-memory entity stores consistent with server-pushed change notifications
(the `entities` batched reconciliation handler and the per-event entity
mutation handlers), together with the server-side comment resolution model.

Entity stores are modelled as lists of records keyed by a string id; the
store operations (`get`, `add`, `remove`, `removeAll`, `fetch`) follow the
Entity Store contract. Network refetches are modelled by an oracle function
returning `Except FetchErr`, and each handler is a pure state transformer
that additionally records a trace of the fetch calls it issued.
-/

namespace Outline

/-- Entity Store `get`: the first record whose key equals `i`.
Modelled from the spec: the Entity Store contract (the store classes are
not part of this excerpt), `get(id) → record|absent`. -/
def getById (key : α → String) (i : String) (xs : List α) : Option α :=
  xs.find? (fun x => key x == i)

/-- Entity Store `remove`: drop every record whose key equals `i`.
Modelled from the spec: the Entity Store contract, `remove(id) → void`. -/
def removeById (key : α → String) (i : String) (xs : List α) : List α :=
  xs.filter (fun x => key x != i)

/-- Entity Store `add` (upsert): replace the record with the same key when
present, append otherwise. Modelled from the spec: the Entity Store
contract, `add(partialRecord) → merged record` (events in this model carry
full records, so the merge is a replacement). -/
def addById (key : α → String) (x : α) (xs : List α) : List α :=
  if (getById key (key x) xs).isSome then
    xs.map (fun y => if key y == key x then x else y)
  else xs ++ [x]

theorem getById_removeById (key : α → String) (i : String) (xs : List α) :
    getById key i (removeById key i xs) = none := by
  rw [getById, List.find?_eq_none]
  intro x hx
  rw [removeById, List.mem_filter] at hx
  simpa using hx.2

theorem removeById_addById_fresh (key : α → String) (x : α) (xs : List α)
    (h : getById key (key x) xs = none) :
    removeById key (key x) (addById key x xs) = xs := by
  rw [getById, List.find?_eq_none] at h
  have hfresh : ∀ a ∈ xs, (key a != key x) = true := by
    intro a ha
    simpa using h a ha
  rw [addById]
  rw [getById, List.find?_eq_none.mpr (by intro a ha; simpa using h a ha)]
  simp only [Option.isSome_none, Bool.false_eq_true, if_false]
  rw [removeById, List.filter_append, List.filter_eq_self.mpr hfresh]
  simp

/-- A cached document record (client model `Document`), with the fields the
handlers read: staleness timestamp, title, owning collection, publication
and deletion state, and the ids of its child documents. -/
structure Document where
  id : String
  updatedAt : String
  title : String
  collectionId : Option String
  publishedAt : Option String
  deletedAt : Option String
  childDocuments : List String
deriving Repr, DecidableEq

/-- A cached collection record (client model `Collection`), with its
staleness timestamp and the cached list of document ids under it. -/
structure Collection where
  id : String
  updatedAt : String
  documents : List String
deriving Repr, DecidableEq

/-- A collection membership record (client model `Membership`). -/
structure Membership where
  id : String
  userId : String
  collectionId : String
deriving Repr, DecidableEq

/-- A document membership record (client model `UserMembership`). -/
structure UserMembership where
  id : String
  userId : String
  documentId : String
deriving Repr, DecidableEq

/-- A cached authorization-decision record (client model `Policy`); only
the `read` ability is relevant to the handlers. `none` models an ability
key that is absent from the abilities record. -/
structure Policy where
  id : String
  abilitiesRead : Option Bool
deriving Repr, DecidableEq

/-- A cached comment record (client model `Comment` as stored). -/
structure CommentRec where
  id : String
  data : String
deriving Repr, DecidableEq

/-- A cached group record. -/
structure Group where
  id : String
  name : String
deriving Repr, DecidableEq

/-- A cached pin record. -/
structure Pin where
  id : String
  documentId : String
deriving Repr, DecidableEq

/-- A cached star record. -/
structure Star where
  id : String
  documentId : String
deriving Repr, DecidableEq

/-- A cached subscription record. -/
structure Subscription where
  id : String
  documentId : String
deriving Repr, DecidableEq

/-- The client-side cache: one Entity Store per entity type touched by the
handlers under study. -/
structure State where
  documents : List Document
  collections : List Collection
  memberships : List Membership
  userMemberships : List UserMembership
  policies : List Policy
  comments : List CommentRec
  groups : List Group
  pins : List Pin
  stars : List Star
  subscriptions : List Subscription
deriving Repr, DecidableEq

/-- Errors a refetch from the authoritative source can fail with:
`AuthorizationError`, `NotFoundError`, or any other error. -/
inductive FetchErr where
  | authorization
  | notFound
  | other
deriving Repr, DecidableEq

/-- A record of one refetch call issued by the `entities` handler: a forced
document fetch or a forced fetch of a collection's document list. -/
inductive FetchCall where
  | doc (id : String)
  | col (id : String)
deriving Repr, DecidableEq

/-- A document entry of an `entities` batch: a minimal `{id, updatedAt?}`
descriptor. -/
structure DocumentDescriptor where
  id : String
  updatedAt : Option String
deriving Repr, DecidableEq

/-- A collection entry of an `entities` batch. Synthesized descriptors
(pushed when a document title changed) carry no `updatedAt`. -/
structure CollectionDescriptor where
  id : String
  updatedAt : Option String
deriving Repr, DecidableEq

/-- The payload of the `entities` websocket event. `none` models an absent
array field. -/
structure EntitiesEvent where
  documentIds : Option (List DocumentDescriptor)
  collectionIds : Option (List CollectionDescriptor)
  fetchIfMissing : Bool
deriving Repr, DecidableEq

/-- The state threaded through the document-descriptor loop of the
`entities` handler: the cache, the batch's (mutable) collection list, the
refetch calls issued so far, and whether the handler has returned early. -/
structure DocLoopState where
  st : State
  collectionIds : Option (List CollectionDescriptor)
  trace : List FetchCall
  aborted : Bool
deriving Repr, DecidableEq

/-- The state threaded through the collection-descriptor loop (and the
overall result of the `entities` handler). -/
structure ColLoopState where
  st : State
  trace : List FetchCall
  aborted : Bool
deriving Repr, DecidableEq

/-- The title-change check that follows a document refetch attempt:
`if (document && previousTitle !== document.title)` then ensure the batch
has a collection list and push a descriptor for the document's owning
collection unless one with that id already exists or the document has no
owning collection. `document` is the local variable after the `try` block:
the fetched record on success, the previously cached record (possibly
absent) when the fetch threw a swallowed error. -/
def afterFetchTitleCheck (document : Option Document) (previousTitle : Option String)
    (ls : DocLoopState) : DocLoopState :=
  match document with
  | none => ls
  | some doc =>
    if previousTitle = some doc.title then ls
    else
      let cids := ls.collectionIds.getD []
      match doc.collectionId with
      | none => { ls with collectionIds := some cids }
      | some cid =>
        if cids.any (fun c => c.id == cid) then { ls with collectionIds := some cids }
        else { ls with collectionIds := some (cids ++ [{ id := cid, updatedAt := none }]) }

/-- One iteration of the document-descriptor loop of the `entities`
handler. `f` is the refetch oracle for `documents.fetch(id, force)`;
on success the fetched record is upserted into the document store
(Modelled from the spec: Entity Store `fetch` materializes the record in
the store and returns it). An `AuthorizationError` or `NotFoundError`
removes the cached record and returns from the whole handler (modelled by
the `aborted` flag, which makes every later iteration a no-op); any other
fetch error is swallowed. -/
def processDocDescriptor (f : String → Except FetchErr Document) (fim : Bool)
    (ls : DocLoopState) (d : DocumentDescriptor) : DocLoopState :=
  if ls.aborted then ls
  else
    let doc0 := getById Document.id d.id ls.st.documents
    let previousTitle := doc0.map (fun x => x.title)
    if doc0.map (fun x => x.updatedAt) = d.updatedAt then ls
    else if doc0 = none ∧ fim = false then ls
    else
      match f d.id with
      | Except.error e =>
        if e = FetchErr.authorization ∨ e = FetchErr.notFound then
          { ls with
            st := { ls.st with documents := removeById Document.id d.id ls.st.documents }
            trace := ls.trace ++ [FetchCall.doc d.id]
            aborted := true }
        else
          afterFetchTitleCheck doc0 previousTitle
            { ls with trace := ls.trace ++ [FetchCall.doc d.id] }
      | Except.ok fetched =>
        afterFetchTitleCheck (some fetched) previousTitle
          { ls with
            st := { ls.st with documents := addById Document.id fetched ls.st.documents }
            trace := ls.trace ++ [FetchCall.doc d.id] }

/-- One iteration of the collection-descriptor loop of the `entities`
handler. `fc` is the refetch oracle for `collection.fetchDocuments(force)`;
on success the collection's cached document list is replaced (Modelled from
the spec: force-refetch of the collection's document list). The optional
chaining on the cached collection means an absent collection issues no
fetch. An `AuthorizationError` or `NotFoundError` removes the memberships
scoped to the collection and the collection itself and returns from the
handler. -/
def processColDescriptor (fc : String → Except FetchErr (List String)) (fim : Bool)
    (ls : ColLoopState) (c : CollectionDescriptor) : ColLoopState :=
  if ls.aborted then ls
  else
    let col0 := getById Collection.id c.id ls.st.collections
    if col0.map (fun x => x.updatedAt) = c.updatedAt then ls
    else if (col0.elim [] (fun x => x.documents)) = [] ∧ fim = false then ls
    else
      match col0 with
      | none => ls
      | some _ =>
        match fc c.id with
        | Except.ok docIds =>
          let cols := ls.st.collections.map
            (fun k => if k.id == c.id then { k with documents := docIds } else k)
          { ls with
            st := { ls.st with collections := cols }
            trace := ls.trace ++ [FetchCall.col c.id] }
        | Except.error e =>
          if e = FetchErr.authorization ∨ e = FetchErr.notFound then
            { ls with
              st := { ls.st with
                memberships := ls.st.memberships.filter (fun m => m.collectionId != c.id)
                collections := removeById Collection.id c.id ls.st.collections }
              trace := ls.trace ++ [FetchCall.col c.id]
              aborted := true }
          else { ls with trace := ls.trace ++ [FetchCall.col c.id] }

/-- The document-descriptor loop: a left fold of `processDocDescriptor`. -/
def runDocs (f : String → Except FetchErr Document) (fim : Bool)
    (ds : List DocumentDescriptor) (ls : DocLoopState) : DocLoopState :=
  ds.foldl (processDocDescriptor f fim) ls

/-- The collection-descriptor loop: a left fold of `processColDescriptor`. -/
def runCols (fc : String → Except FetchErr (List String)) (fim : Bool)
    (cs : List CollectionDescriptor) (ls : ColLoopState) : ColLoopState :=
  cs.foldl (processColDescriptor fc fim) ls

/-- The whole `entities` handler: process the document descriptors (which
may synthesize collection descriptors into the batch), then, unless the
document loop returned early, process the batch's collection descriptors. -/
def runEntities (f : String → Except FetchErr Document)
    (fc : String → Except FetchErr (List String))
    (ev : EntitiesEvent) (st : State) : ColLoopState :=
  let init : DocLoopState := { st := st, collectionIds := ev.collectionIds, trace := [], aborted := false }
  let dls := match ev.documentIds with
    | none => init
    | some ds => runDocs f ev.fetchIfMissing ds init
  if dls.aborted then { st := dls.st, trace := dls.trace, aborted := true }
  else
    match dls.collectionIds with
    | none => { st := dls.st, trace := dls.trace, aborted := false }
    | some cs => runCols fc ev.fetchIfMissing cs { st := dls.st, trace := dls.trace, aborted := false }

/-- The document loop run on a prefix of the batch, from the handler's
initial loop state. -/
def docPrefixRun (f : String → Except FetchErr Document) (ev : EntitiesEvent)
    (ds : List DocumentDescriptor) (st : State) : DocLoopState :=
  runDocs f ev.fetchIfMissing ds
    { st := st, collectionIds := ev.collectionIds, trace := [], aborted := false }

/-- The payload of `documents.remove_user` / `documents.add_user`
(a `UserMembership` event). -/
structure UserMembershipEvent where
  id : String
  userId : String
  documentId : String
deriving Repr, DecidableEq

/-- The payload of `collections.remove_user` (a `Membership` event). -/
structure MembershipEvent where
  id : String
  userId : String
  collectionId : String
deriving Repr, DecidableEq

/-- The `documents.remove_user` handler: remove the membership record;
when the removed user is the current session's user, evict the cached
policy of every child of the affected document; then remove the cached
document only when a policy is cached for it whose `read` ability is
exactly `false`. -/
def documentsRemoveUser (currentUserId : Option String) (ev : UserMembershipEvent)
    (st : State) : State :=
  let st1 := { st with userMemberships := removeById UserMembership.id ev.id st.userMemberships }
  let st2 :=
    if some ev.userId = currentUserId then
      match getById Document.id ev.documentId st1.documents with
      | some doc =>
        { st1 with policies := st1.policies.filter (fun p => !(doc.childDocuments.contains p.id)) }
      | none => st1
    else st1
  match getById Policy.id ev.documentId st2.policies with
  | some p =>
    if p.abilitiesRead = some false then
      { st2 with documents := removeById Document.id ev.documentId st2.documents }
    else st2
  | none => st2

/-- The `collections.remove_user` handler: remove the membership record,
then remove the cached collection only when a policy is cached for it
whose `read` ability is exactly `false`. -/
def collectionsRemoveUser (ev : MembershipEvent) (st : State) : State :=
  let st1 := { st with memberships := removeById Membership.id ev.id st.memberships }
  match getById Policy.id ev.collectionId st1.policies with
  | some p =>
    if p.abilitiesRead = some false then
      { st1 with collections := removeById Collection.id ev.collectionId st1.collections }
    else st1
  | none => st1

/-- The documents cached under a collection. Modelled from the spec:
`documents.inCollection(collectionId)` is not part of this excerpt; per the
spec it yields every document previously in that collection. -/
def inCollection (collectionId : String) (docs : List Document) : List Document :=
  docs.filter (fun d => d.collectionId == some collectionId)

/-- The `collections.delete` handler: detach every unpublished cached
document of the collection (clear its collection reference), soft-delete
every published one (stamp `deletedAt` with the current time), evict each
affected document's policy, remove every membership scoped to the
collection, and remove the collection record. `now` is the ISO timestamp
taken at handler entry. -/
def collectionsDelete (now : String) (modelId : String) (st : State) : State :=
  let affected := inCollection modelId st.documents
  let docs := st.documents.map (fun d =>
    if d.collectionId = some modelId then
      if d.publishedAt = none then { d with collectionId := none }
      else { d with deletedAt := some now }
    else d)
  { st with
    documents := docs
    policies := st.policies.filter (fun p => !(affected.any (fun d => d.id == p.id)))
    memberships := st.memberships.filter (fun m => m.collectionId != modelId)
    collections := removeById Collection.id modelId st.collections }

/-- The `comments.create` handler. -/
def commentsCreate (e : CommentRec) (st : State) : State :=
  { st with comments := addById CommentRec.id e st.comments }

/-- The `comments.delete` handler. -/
def commentsDelete (modelId : String) (st : State) : State :=
  { st with comments := removeById CommentRec.id modelId st.comments }

/-- The `groups.create` handler. -/
def groupsCreate (e : Group) (st : State) : State :=
  { st with groups := addById Group.id e st.groups }

/-- The `groups.delete` handler. -/
def groupsDelete (modelId : String) (st : State) : State :=
  { st with groups := removeById Group.id modelId st.groups }

/-- The `pins.create` handler. -/
def pinsCreate (e : Pin) (st : State) : State :=
  { st with pins := addById Pin.id e st.pins }

/-- The `pins.delete` handler. -/
def pinsDelete (modelId : String) (st : State) : State :=
  { st with pins := removeById Pin.id modelId st.pins }

/-- The `stars.create` handler. -/
def starsCreate (e : Star) (st : State) : State :=
  { st with stars := addById Star.id e st.stars }

/-- The `stars.delete` handler. -/
def starsDelete (modelId : String) (st : State) : State :=
  { st with stars := removeById Star.id modelId st.stars }

/-- The `subscriptions.create` handler. -/
def subscriptionsCreate (e : Subscription) (st : State) : State :=
  { st with subscriptions := addById Subscription.id e st.subscriptions }

/-- The `subscriptions.delete` handler. -/
def subscriptionsDelete (modelId : String) (st : State) : State :=
  { st with subscriptions := removeById Subscription.id modelId st.subscriptions }

/-- The `collections.create` handler. -/
def collectionsCreate (e : Collection) (st : State) : State :=
  { st with collections := addById Collection.id e st.collections }

/-- The transport socket as the provider sees it: the connection handle
with its `authenticated` flag. -/
structure Socket where
  authenticated : Bool
deriving Repr, DecidableEq

/-- The connection-side state relevant to the auth handlers: the possibly
null socket reference and the list of user-visible error notices shown so
far. -/
structure ConnState where
  socket : Option Socket
  toasts : List String
deriving Repr, DecidableEq

/-- A transport-level error carried by the `unauthorized` signal. -/
structure JsError where
  message : String
deriving Repr, DecidableEq

/-- The result of the `unauthorized` handler: the new connection state and
the error it re-raises (`throw err`). -/
structure UnauthorizedResult where
  conn : ConnState
  raised : Option JsError
deriving Repr, DecidableEq

/-- The `authenticated` signal handler: if the socket reference is live,
set its `authenticated` flag. -/
def onAuthenticated (cs : ConnState) : ConnState :=
  match cs.socket with
  | some s => { cs with socket := some { s with authenticated := true } }
  | none => cs

/-- The `unauthorized` signal handler: if the socket reference is live,
clear its `authenticated` flag; show an error notice with the error's
message; re-raise the error. -/
def onUnauthorized (err : JsError) (cs : ConnState) : UnauthorizedResult :=
  let cs1 :=
    match cs.socket with
    | some s => { cs with socket := some { s with authenticated := false } }
    | none => cs
  { conn := { cs1 with toasts := cs1.toasts ++ [err.message] }, raised := some err }

/-- A user, as referenced by the server-side comment model. -/
structure User where
  id : String
deriving Repr, DecidableEq

/-- A validation error raised by the server-side comment model. -/
structure ValidationError where
  message : String
deriving Repr, DecidableEq

/-- The server-side `Comment` model: the fields read and written by the
`resolve` / `unresolve` methods. -/
structure Comment where
  id : String
  resolvedById : Option String
  resolvedBy : Option User
  parentCommentId : Option String
deriving Repr, DecidableEq

/-- `Comment.resolve`: throws when the comment is already resolved or is a
reply; otherwise records the resolving user and saves, returning the saved
comment. -/
def Comment.resolve (c : Comment) (resolvedBy : User) : Except ValidationError Comment :=
  if c.resolvedById.isSome then
    Except.error { message := "Comment is already resolved" }
  else if c.parentCommentId.isSome then
    Except.error { message := "Cannot resolve a reply" }
  else
    Except.ok { c with resolvedById := some resolvedBy.id, resolvedBy := some resolvedBy }

/-- `Comment.unresolve`: throws when the comment is not resolved; otherwise
clears the resolution fields and saves, returning the saved comment. -/
def Comment.unresolve (c : Comment) : Except ValidationError Comment :=
  if c.resolvedById.isNone then
    Except.error { message := "Comment is not resolved" }
  else
    Except.ok { c with resolvedById := none, resolvedBy := none }

/-- Whether an `Except` value is an error. -/
def isErr : Except ε α → Bool
  | Except.error _ => true
  | Except.ok _ => false

theorem processDocDescriptor_aborted (f : String → Except FetchErr Document) (fim : Bool)
    (ls : DocLoopState) (d : DocumentDescriptor) (h : ls.aborted = true) :
    processDocDescriptor f fim ls d = ls := by
  simp [processDocDescriptor, h]

theorem runDocs_aborted (f : String → Except FetchErr Document) (fim : Bool)
    (ds : List DocumentDescriptor) (ls : DocLoopState) (h : ls.aborted = true) :
    runDocs f fim ds ls = ls := by
  induction ds with
  | nil => rfl
  | cons d ds ih =>
    rw [runDocs, List.foldl_cons, processDocDescriptor_aborted f fim ls d h]
    exact ih

theorem runDocs_append (f : String → Except FetchErr Document) (fim : Bool)
    (A B : List DocumentDescriptor) (ls : DocLoopState) :
    runDocs f fim (A ++ B) ls = runDocs f fim B (runDocs f fim A ls) := by
  simp [runDocs, List.foldl_append]

theorem processColDescriptor_aborted (fc : String → Except FetchErr (List String)) (fim : Bool)
    (ls : ColLoopState) (c : CollectionDescriptor) (h : ls.aborted = true) :
    processColDescriptor fc fim ls c = ls := by
  simp [processColDescriptor, h]

theorem runCols_aborted (fc : String → Except FetchErr (List String)) (fim : Bool)
    (cs : List CollectionDescriptor) (ls : ColLoopState) (h : ls.aborted = true) :
    runCols fc fim cs ls = ls := by
  induction cs with
  | nil => rfl
  | cons c cs ih =>
    rw [runCols, List.foldl_cons, processColDescriptor_aborted fc fim ls c h]
    exact ih

theorem runCols_append (fc : String → Except FetchErr (List String)) (fim : Bool)
    (A B : List CollectionDescriptor) (ls : ColLoopState) :
    runCols fc fim (A ++ B) ls = runCols fc fim B (runCols fc fim A ls) := by
  simp [runCols, List.foldl_append]

theorem afterFetchTitleCheck_sameTitle (o : Option Document) (ls : DocLoopState) :
    afterFetchTitleCheck o (o.map (fun x => x.title)) ls = ls := by
  cases o with
  | none => rfl
  | some doc => simp [afterFetchTitleCheck]

theorem processDocDescriptor_authAbort (f : String → Except FetchErr Document) (fim : Bool)
    (ls : DocLoopState) (d : DocumentDescriptor) (e : FetchErr)
    (hab : ls.aborted = false)
    (h1 : (getById Document.id d.id ls.st.documents).map (fun x => x.updatedAt) ≠ d.updatedAt)
    (h2 : ¬(getById Document.id d.id ls.st.documents = none ∧ fim = false))
    (hf : f d.id = Except.error e)
    (he : e = FetchErr.authorization ∨ e = FetchErr.notFound) :
    processDocDescriptor f fim ls d =
      { ls with
        st := { ls.st with documents := removeById Document.id d.id ls.st.documents }
        trace := ls.trace ++ [FetchCall.doc d.id]
        aborted := true } := by
  rw [processDocDescriptor]
  simp only [hab, Bool.false_eq_true, if_false, hf]
  rw [if_neg h1, if_neg h2, if_pos he]

theorem processDocDescriptor_ok (f : String → Except FetchErr Document) (fim : Bool)
    (ls : DocLoopState) (d : DocumentDescriptor) (fetched : Document)
    (hab : ls.aborted = false)
    (h1 : (getById Document.id d.id ls.st.documents).map (fun x => x.updatedAt) ≠ d.updatedAt)
    (h2 : ¬(getById Document.id d.id ls.st.documents = none ∧ fim = false))
    (hf : f d.id = Except.ok fetched) :
    processDocDescriptor f fim ls d =
      afterFetchTitleCheck (some fetched)
        ((getById Document.id d.id ls.st.documents).map (fun x => x.title))
        { ls with
          st := { ls.st with documents := addById Document.id fetched ls.st.documents }
          trace := ls.trace ++ [FetchCall.doc d.id] } := by
  rw [processDocDescriptor]
  simp only [hab, Bool.false_eq_true, if_false, hf]
  rw [if_neg h1, if_neg h2]

theorem processDocDescriptor_otherErr (f : String → Except FetchErr Document) (fim : Bool)
    (ls : DocLoopState) (d : DocumentDescriptor)
    (hab : ls.aborted = false)
    (h1 : (getById Document.id d.id ls.st.documents).map (fun x => x.updatedAt) ≠ d.updatedAt)
    (h2 : ¬(getById Document.id d.id ls.st.documents = none ∧ fim = false))
    (hf : f d.id = Except.error FetchErr.other) :
    processDocDescriptor f fim ls d = { ls with trace := ls.trace ++ [FetchCall.doc d.id] } := by
  rw [processDocDescriptor]
  simp only [hab, Bool.false_eq_true, if_false, hf]
  rw [if_neg h1, if_neg h2, if_neg (by simp)]
  exact afterFetchTitleCheck_sameTitle _ _

theorem processColDescriptor_skipUpdated (fc : String → Except FetchErr (List String)) (fim : Bool)
    (ls : ColLoopState) (c : CollectionDescriptor)
    (h : (getById Collection.id c.id ls.st.collections).map (fun x => x.updatedAt) = c.updatedAt) :
    processColDescriptor fc fim ls c = ls := by
  rw [processColDescriptor]
  by_cases hab : ls.aborted = true
  · rw [if_pos hab]
  · rw [if_neg hab, if_pos h]

theorem processColDescriptor_skipNoDocs (fc : String → Except FetchErr (List String)) (fim : Bool)
    (ls : ColLoopState) (c : CollectionDescriptor)
    (h1 : (getById Collection.id c.id ls.st.collections).map (fun x => x.updatedAt) ≠ c.updatedAt)
    (h2 : (getById Collection.id c.id ls.st.collections).elim [] (fun x => x.documents) = [])
    (h3 : fim = false) :
    processColDescriptor fc fim ls c = ls := by
  rw [processColDescriptor]
  by_cases hab : ls.aborted = true
  · rw [if_pos hab]
  · rw [if_neg hab, if_neg h1, if_pos ⟨h2, h3⟩]

theorem processColDescriptor_absent (fc : String → Except FetchErr (List String)) (fim : Bool)
    (ls : ColLoopState) (c : CollectionDescriptor)
    (h1 : (getById Collection.id c.id ls.st.collections).map (fun x => x.updatedAt) ≠ c.updatedAt)
    (h2 : ¬((getById Collection.id c.id ls.st.collections).elim [] (fun x => x.documents) = [] ∧ fim = false))
    (hcol : getById Collection.id c.id ls.st.collections = none) :
    processColDescriptor fc fim ls c = ls := by
  rw [processColDescriptor]
  by_cases hab : ls.aborted = true
  · rw [if_pos hab]
  · rw [if_neg hab, if_neg h1, if_neg h2, hcol]

theorem processColDescriptor_authAbort (fc : String → Except FetchErr (List String)) (fim : Bool)
    (ls : ColLoopState) (c : CollectionDescriptor) (k : Collection) (e : FetchErr)
    (hab : ls.aborted = false)
    (h1 : (getById Collection.id c.id ls.st.collections).map (fun x => x.updatedAt) ≠ c.updatedAt)
    (h2 : ¬((getById Collection.id c.id ls.st.collections).elim [] (fun x => x.documents) = [] ∧ fim = false))
    (hcol : getById Collection.id c.id ls.st.collections = some k)
    (hf : fc c.id = Except.error e)
    (he : e = FetchErr.authorization ∨ e = FetchErr.notFound) :
    processColDescriptor fc fim ls c =
      { ls with
        st := { ls.st with
          memberships := ls.st.memberships.filter (fun m => m.collectionId != c.id)
          collections := removeById Collection.id c.id ls.st.collections }
        trace := ls.trace ++ [FetchCall.col c.id]
        aborted := true } := by
  rw [processColDescriptor]
  simp only [hab, Bool.false_eq_true, if_false]
  rw [if_neg h1, if_neg h2, hcol]
  simp only [hf]
  rw [if_pos he]

theorem processColDescriptor_otherErr (fc : String → Except FetchErr (List String)) (fim : Bool)
    (ls : ColLoopState) (c : CollectionDescriptor) (k : Collection)
    (hab : ls.aborted = false)
    (h1 : (getById Collection.id c.id ls.st.collections).map (fun x => x.updatedAt) ≠ c.updatedAt)
    (h2 : ¬((getById Collection.id c.id ls.st.collections).elim [] (fun x => x.documents) = [] ∧ fim = false))
    (hcol : getById Collection.id c.id ls.st.collections = some k)
    (hf : fc c.id = Except.error FetchErr.other) :
    processColDescriptor fc fim ls c = { ls with trace := ls.trace ++ [FetchCall.col c.id] } := by
  rw [processColDescriptor]
  simp only [hab, Bool.false_eq_true, if_false]
  rw [if_neg h1, if_neg h2, hcol]
  simp only [hf]
  rw [if_neg (by simp)]

theorem processColDescriptor_ok (fc : String → Except FetchErr (List String)) (fim : Bool)
    (ls : ColLoopState) (c : CollectionDescriptor) (k : Collection) (docIds : List String)
    (hab : ls.aborted = false)
    (h1 : (getById Collection.id c.id ls.st.collections).map (fun x => x.updatedAt) ≠ c.updatedAt)
    (h2 : ¬((getById Collection.id c.id ls.st.collections).elim [] (fun x => x.documents) = [] ∧ fim = false))
    (hcol : getById Collection.id c.id ls.st.collections = some k)
    (hf : fc c.id = Except.ok docIds) :
    processColDescriptor fc fim ls c =
      { ls with
        st := { ls.st with collections := (ls.st.collections.map
          (fun x => if x.id == c.id then { x with documents := docIds } else x)) }
        trace := ls.trace ++ [FetchCall.col c.id] } := by
  rw [processColDescriptor]
  simp only [hab, Bool.false_eq_true, if_false]
  rw [if_neg h1, if_neg h2, hcol]
  simp only [hf]

theorem getById_mem_and_key (key : α → String) (i : String) (xs : List α) (x : α)
    (h : getById key i xs = some x) : x ∈ xs ∧ key x = i := by
  refine ⟨List.mem_of_find?_eq_some h, ?_⟩
  have hx := List.find?_some h
  simpa using hx

/-- The empty cache, used as a base for concrete test states. -/
def emptyState : State :=
  { documents := [], collections := [], memberships := [], userMemberships := []
    policies := [], comments := [], groups := [], pins := [], stars := []
    subscriptions := [] }

/-- Claim C2: a document descriptor whose cached record's `updatedAt`
exactly equals the descriptor's `updatedAt` is skipped: the document loop
state is returned unchanged, so no refetch call is traced and the cached
record is untouched. -/
theorem entities_doc_skip_when_current (f : String → Except FetchErr Document) (fim : Bool)
    (ls : DocLoopState) (d : DocumentDescriptor) (doc : Document)
    (hget : getById Document.id d.id ls.st.documents = some doc)
    (hupd : d.updatedAt = some doc.updatedAt) :
    processDocDescriptor f fim ls d = ls := by
  rw [processDocDescriptor]
  by_cases hab : ls.aborted = true
  · rw [if_pos hab]
  · rw [if_neg hab, if_pos (by rw [hget, hupd]; rfl)]

/-- A concrete cached document used by witnesses. -/
def wDoc1 : Document := ⟨"d1", "t1", "T", none, none, none, []⟩

/-- A concrete cache holding only `wDoc1`. -/
def wStateD1 : State := { emptyState with documents := [wDoc1] }

/-- Witness for C2 at a concrete cached document and matching descriptor. -/
theorem entities_doc_skip_when_current_witness :
    processDocDescriptor (fun _ => Except.error FetchErr.other) true
      { st := wStateD1, collectionIds := none, trace := [], aborted := false }
      { id := "d1", updatedAt := some "t1" } =
      { st := wStateD1, collectionIds := none, trace := [], aborted := false } :=
  entities_doc_skip_when_current _ _ _ _ wDoc1 (by decide) (by decide)

/-- Claim C9: a refetch failure with an error other than
`AuthorizationError` or `NotFoundError` is swallowed, for both loops of the
`entities` handler: the cache is unchanged (no record removed), the loop is
not aborted, the only effect is the traced fetch call, and (for a document
descriptor) the batch's collection list is unchanged, so no collection
descriptor is synthesized. -/
theorem entities_other_error_swallowed :
    (∀ (f : String → Except FetchErr Document) (fim : Bool)
       (ls : DocLoopState) (d : DocumentDescriptor),
      ls.aborted = false →
      (getById Document.id d.id ls.st.documents).map (fun x => x.updatedAt) ≠ d.updatedAt →
      ¬(getById Document.id d.id ls.st.documents = none ∧ fim = false) →
      f d.id = Except.error FetchErr.other →
      processDocDescriptor f fim ls d = { ls with trace := ls.trace ++ [FetchCall.doc d.id] })
    ∧ (∀ (fc : String → Except FetchErr (List String)) (fim : Bool)
         (ls : ColLoopState) (c : CollectionDescriptor) (k : Collection),
      ls.aborted = false →
      (getById Collection.id c.id ls.st.collections).map (fun x => x.updatedAt) ≠ c.updatedAt →
      ¬((getById Collection.id c.id ls.st.collections).elim [] (fun x => x.documents) = [] ∧ fim = false) →
      getById Collection.id c.id ls.st.collections = some k →
      fc c.id = Except.error FetchErr.other →
      processColDescriptor fc fim ls c = { ls with trace := ls.trace ++ [FetchCall.col c.id] }) :=
  ⟨fun f fim ls d hab h1 h2 hf => processDocDescriptor_otherErr f fim ls d hab h1 h2 hf,
   fun fc fim ls c k hab h1 h2 hcol hf => processColDescriptor_otherErr fc fim ls c k hab h1 h2 hcol hf⟩

/-- A concrete cached collection with one cached document, used by
witnesses. -/
def wCol1 : Collection := ⟨"c1", "t1", ["d1"]⟩

/-- A concrete cache holding only `wCol1`. -/
def wStateC1 : State := { emptyState with collections := [wCol1] }

/-- Witness for C9: a concrete uncached document fetched with
`fetchIfMissing`, failing with a generic error, and a concrete cached
collection whose document-list refetch fails with a generic error. -/
theorem entities_other_error_swallowed_witness :
    processDocDescriptor (fun _ => Except.error FetchErr.other) true
      { st := emptyState, collectionIds := none, trace := [], aborted := false }
      { id := "d1", updatedAt := some "t1" } =
      { st := emptyState, collectionIds := none, trace := [FetchCall.doc "d1"], aborted := false }
    ∧ processColDescriptor (fun _ => Except.error FetchErr.other) false
      { st := wStateC1, trace := [], aborted := false }
      { id := "c1", updatedAt := some "t0" } =
      { st := wStateC1, trace := [FetchCall.col "c1"], aborted := false } :=
  ⟨entities_other_error_swallowed.1 _ _ _ _ (by decide) (by decide) (by decide) rfl,
   entities_other_error_swallowed.2 _ _ _ _ wCol1
     (by decide) (by decide) (by decide) (by decide) rfl⟩

/-- Claim C3: when a document refetch succeeds and the fetched title
differs from the previously cached title (including the uncached case,
where the previous title is absent), a collection descriptor for the
fetched document's owning collection is appended to the batch's collection
list, unless a descriptor with that collection id is already present or the
document has no owning collection (in which cases the list, materialized if
it was absent, is unchanged). -/
theorem entities_title_change_synthesizes_collection
    (f : String → Except FetchErr Document) (fim : Bool) (ls : DocLoopState)
    (d : DocumentDescriptor) (fetched : Document)
    (hab : ls.aborted = false)
    (h1 : (getById Document.id d.id ls.st.documents).map (fun x => x.updatedAt) ≠ d.updatedAt)
    (h2 : ¬(getById Document.id d.id ls.st.documents = none ∧ fim = false))
    (hf : f d.id = Except.ok fetched)
    (htitle : (getById Document.id d.id ls.st.documents).map (fun x => x.title) ≠ some fetched.title) :
    (∀ cid, fetched.collectionId = some cid →
      (((ls.collectionIds.getD []).any (fun c => c.id == cid) = false →
        (processDocDescriptor f fim ls d).collectionIds =
          some ((ls.collectionIds.getD []) ++ [{ id := cid, updatedAt := none }]))
       ∧ ((ls.collectionIds.getD []).any (fun c => c.id == cid) = true →
        (processDocDescriptor f fim ls d).collectionIds = some (ls.collectionIds.getD []))))
    ∧ (fetched.collectionId = none →
        (processDocDescriptor f fim ls d).collectionIds = some (ls.collectionIds.getD [])) := by
  have hok := processDocDescriptor_ok f fim ls d fetched hab h1 h2 hf
  constructor
  · intro cid hcid
    constructor
    · intro hany
      rw [hok, afterFetchTitleCheck]
      rw [if_neg htitle]
      simp only [hcid]
      rw [if_neg (by simp [hany])]
    · intro hany
      rw [hok, afterFetchTitleCheck]
      rw [if_neg htitle]
      simp only [hcid]
      rw [if_pos (by simp [hany])]
  · intro hnone
    rw [hok, afterFetchTitleCheck]
    rw [if_neg htitle]
    simp only [hnone]

/-- A concrete fetched document owned by collection c1, used by
witnesses. -/
def wDocInC1 : Document := ⟨"d1", "t1", "New", some "c1", none, none, []⟩

/-- Witness for C3 at the spec's own example: an uncached document fetched
with `fetchIfMissing`, returning a document owned by collection c1, ends
with a synthesized collection descriptor for c1 in the batch. -/
theorem entities_title_change_synthesizes_collection_witness :
    (processDocDescriptor (fun _ => Except.ok wDocInC1) true
      { st := emptyState, collectionIds := none, trace := [], aborted := false }
      { id := "d1", updatedAt := some "t0" }).collectionIds =
      some [{ id := "c1", updatedAt := none }] :=
  ((entities_title_change_synthesizes_collection _ _ _ _ wDocInC1
      (by decide) (by decide) (by decide) rfl (by decide)).1
    "c1" (by decide)).1 (by decide)

/-- Claim C1: when a forced document refetch fails with
`AuthorizationError` or `NotFoundError`, the document record is removed
from the document store and the whole handler returns: the remaining
document descriptors and every collection descriptor are never processed
(the result is exactly the state after the failing descriptor). Moreover
each loop is a left fold, so the processing of any prefix of a batch never
depends on the descriptors after it. -/
theorem entities_doc_auth_failure_aborts_batch :
    (∀ (f : String → Except FetchErr Document) (fc : String → Except FetchErr (List String))
       (ev : EntitiesEvent) (ds1 ds2 : List DocumentDescriptor) (d : DocumentDescriptor)
       (st : State) (e : FetchErr),
      ev.documentIds = some (ds1 ++ d :: ds2) →
      (docPrefixRun f ev ds1 st).aborted = false →
      (getById Document.id d.id (docPrefixRun f ev ds1 st).st.documents).map
        (fun x => x.updatedAt) ≠ d.updatedAt →
      ¬(getById Document.id d.id (docPrefixRun f ev ds1 st).st.documents = none ∧
        ev.fetchIfMissing = false) →
      f d.id = Except.error e →
      (e = FetchErr.authorization ∨ e = FetchErr.notFound) →
      runEntities f fc ev st =
        { st := { (docPrefixRun f ev ds1 st).st with
            documents := removeById Document.id d.id (docPrefixRun f ev ds1 st).st.documents }
          trace := (docPrefixRun f ev ds1 st).trace ++ [FetchCall.doc d.id]
          aborted := true })
    ∧ (∀ (f : String → Except FetchErr Document) (fim : Bool)
         (A B : List DocumentDescriptor) (ls : DocLoopState),
        runDocs f fim (A ++ B) ls = runDocs f fim B (runDocs f fim A ls))
    ∧ (∀ (fc : String → Except FetchErr (List String)) (fim : Bool)
         (A B : List CollectionDescriptor) (ls : ColLoopState),
        runCols fc fim (A ++ B) ls = runCols fc fim B (runCols fc fim A ls)) := by
  refine ⟨?_, runDocs_append, runCols_append⟩
  intro f fc ev ds1 ds2 d st e hids hab h1 h2 hf he
  have hmid := processDocDescriptor_authAbort f ev.fetchIfMissing (docPrefixRun f ev ds1 st) d e
    hab h1 h2 hf he
  have key : runDocs f ev.fetchIfMissing (ds1 ++ d :: ds2)
      { st := st, collectionIds := ev.collectionIds, trace := [], aborted := false } =
      { (docPrefixRun f ev ds1 st) with
        st := { (docPrefixRun f ev ds1 st).st with
          documents := removeById Document.id d.id (docPrefixRun f ev ds1 st).st.documents }
        trace := (docPrefixRun f ev ds1 st).trace ++ [FetchCall.doc d.id]
        aborted := true } := by
    rw [runDocs_append]
    show runDocs f ev.fetchIfMissing (d :: ds2) (docPrefixRun f ev ds1 st) = _
    rw [runDocs, List.foldl_cons, hmid]
    exact runDocs_aborted _ _ _ _ rfl
  rw [runEntities]
  simp only [hids, key]
  rw [if_pos trivial]

/-- Witness for C1: a two-descriptor batch with a collection descriptor,
where the first document refetch fails with `AuthorizationError`: the
second document and the collection are never processed and d1 is removed. -/
theorem entities_doc_auth_failure_aborts_batch_witness :
    runEntities (fun _ => Except.error FetchErr.authorization) (fun _ => Except.ok [])
      { documentIds := some [{ id := "d1", updatedAt := some "t9" }, { id := "d2", updatedAt := some "t9" }]
        collectionIds := some [{ id := "c1", updatedAt := some "t9" }]
        fetchIfMissing := true }
      wStateD1 =
      { st := { wStateD1 with documents := removeById Document.id "d1" wStateD1.documents }
        trace := [FetchCall.doc "d1"]
        aborted := true } :=
  entities_doc_auth_failure_aborts_batch.1 _ _ _ [] [{ id := "d2", updatedAt := some "t9" }]
    { id := "d1", updatedAt := some "t9" } wStateD1 FetchErr.authorization
    rfl (by decide) (by decide) (by decide) rfl (Or.inl rfl)

/-- Counterexample for C4 as stated. Two concrete collection descriptors:
first, collection c1 is cached (not absent) with an empty cached document
list and a differing `updatedAt`, with `fetchIfMissing` false — the claim
demands a forced refetch, but the handler skips the descriptor entirely (no
trace entry, unchanged state). Second, collection c9 is absent and
`fetchIfMissing` is true — the claim demands a forced refetch, but the
optional chaining on the absent cached collection issues no fetch. -/
theorem entities_collection_descriptor_cex :
    ((getById Collection.id "c1" { emptyState with collections := [⟨"c1", "t1", []⟩] }.collections).isSome = true
     ∧ (getById Collection.id "c1" { emptyState with collections := [⟨"c1", "t1", []⟩] }.collections).map
         (fun x => x.updatedAt) ≠ some "t0"
     ∧ processColDescriptor (fun _ => Except.ok ["d1"]) false
         { st := { emptyState with collections := [⟨"c1", "t1", []⟩] }, trace := [], aborted := false }
         { id := "c1", updatedAt := some "t0" } =
         { st := { emptyState with collections := [⟨"c1", "t1", []⟩] }, trace := [], aborted := false })
    ∧ (getById Collection.id "c9" emptyState.collections = none
     ∧ processColDescriptor (fun _ => Except.ok ["d1"]) true
         { st := emptyState, trace := [], aborted := false }
         { id := "c9", updatedAt := some "t0" } =
         { st := emptyState, trace := [], aborted := false }) := by
  refine ⟨⟨by decide, by decide, ?_⟩, by decide, ?_⟩
  · exact processColDescriptor_skipNoDocs _ _ _ _ (by decide) (by decide) rfl
  · exact processColDescriptor_absent _ _ _ _ (by decide) (by decide) (by decide)

/-- Claim C4 (amended): each collection descriptor of an `entities` batch
is skipped when the cached collection's `updatedAt` equals the
descriptor's; it is also skipped when no documents are cached under it
(the collection being absent, or present with an empty cached document
list) and `fetchIfMissing` is false; otherwise, when the collection is
present locally its document list is force-refetched, while an absent
collection triggers no fetch; on `AuthorizationError` or `NotFoundError`
during that refetch all memberships scoped to the collection and the
collection record are removed, and the remaining collection descriptors of
the batch are not processed. -/
theorem entities_collection_descriptor_processing :
    (∀ (fc : String → Except FetchErr (List String)) (fim : Bool)
       (ls : ColLoopState) (c : CollectionDescriptor),
      (getById Collection.id c.id ls.st.collections).map (fun x => x.updatedAt) = c.updatedAt →
      processColDescriptor fc fim ls c = ls)
    ∧ (∀ (fc : String → Except FetchErr (List String))
         (ls : ColLoopState) (c : CollectionDescriptor),
      (getById Collection.id c.id ls.st.collections).map (fun x => x.updatedAt) ≠ c.updatedAt →
      (getById Collection.id c.id ls.st.collections).elim [] (fun x => x.documents) = [] →
      processColDescriptor fc false ls c = ls)
    ∧ (∀ (fc : String → Except FetchErr (List String)) (fim : Bool)
         (ls : ColLoopState) (c : CollectionDescriptor),
      (getById Collection.id c.id ls.st.collections).map (fun x => x.updatedAt) ≠ c.updatedAt →
      ¬((getById Collection.id c.id ls.st.collections).elim [] (fun x => x.documents) = [] ∧ fim = false) →
      getById Collection.id c.id ls.st.collections = none →
      processColDescriptor fc fim ls c = ls)
    ∧ (∀ (fc : String → Except FetchErr (List String)) (fim : Bool)
         (ls : ColLoopState) (c : CollectionDescriptor) (k : Collection) (docIds : List String),
      ls.aborted = false →
      (getById Collection.id c.id ls.st.collections).map (fun x => x.updatedAt) ≠ c.updatedAt →
      ¬((getById Collection.id c.id ls.st.collections).elim [] (fun x => x.documents) = [] ∧ fim = false) →
      getById Collection.id c.id ls.st.collections = some k →
      fc c.id = Except.ok docIds →
      processColDescriptor fc fim ls c =
        { ls with
          st := { ls.st with collections := (ls.st.collections.map
            (fun x => if x.id == c.id then { x with documents := docIds } else x)) }
          trace := ls.trace ++ [FetchCall.col c.id] })
    ∧ (∀ (fc : String → Except FetchErr (List String)) (fim : Bool)
         (ls : ColLoopState) (c : CollectionDescriptor) (k : Collection) (e : FetchErr),
      ls.aborted = false →
      (getById Collection.id c.id ls.st.collections).map (fun x => x.updatedAt) ≠ c.updatedAt →
      ¬((getById Collection.id c.id ls.st.collections).elim [] (fun x => x.documents) = [] ∧ fim = false) →
      getById Collection.id c.id ls.st.collections = some k →
      fc c.id = Except.error e →
      (e = FetchErr.authorization ∨ e = FetchErr.notFound) →
      processColDescriptor fc fim ls c =
        { ls with
          st := { ls.st with
            memberships := ls.st.memberships.filter (fun m => m.collectionId != c.id)
            collections := removeById Collection.id c.id ls.st.collections }
          trace := ls.trace ++ [FetchCall.col c.id]
          aborted := true })
    ∧ (∀ (fc : String → Except FetchErr (List String)) (fim : Bool)
         (cs : List CollectionDescriptor) (ls : ColLoopState),
      ls.aborted = true → runCols fc fim cs ls = ls) := by
  refine ⟨fun fc fim ls c h => processColDescriptor_skipUpdated fc fim ls c h,
    fun fc ls c h1 h2 => processColDescriptor_skipNoDocs fc false ls c h1 h2 rfl,
    processColDescriptor_absent,
    processColDescriptor_ok,
    processColDescriptor_authAbort,
    runCols_aborted⟩

/-- Witness for the amended C4: a cached collection with one cached
document and a stale timestamp fails its refetch with `NotFoundError`:
its memberships and the collection record are removed and the loop is
aborted. -/
theorem entities_collection_descriptor_processing_witness :
    processColDescriptor (fun _ => Except.error FetchErr.notFound) false
      { st := { wStateC1 with memberships := [⟨"m1", "u1", "c1"⟩, ⟨"m2", "u1", "c2"⟩] }
        trace := [], aborted := false }
      { id := "c1", updatedAt := some "t0" } =
      { st := { emptyState with memberships := [⟨"m2", "u1", "c2"⟩] }
        trace := [FetchCall.col "c1"], aborted := true } := by
  have h := entities_collection_descriptor_processing.2.2.2.2.1
    (fun _ => Except.error FetchErr.notFound) false
    { st := { wStateC1 with memberships := [⟨"m1", "u1", "c1"⟩, ⟨"m2", "u1", "c2"⟩] }
      trace := [], aborted := false }
    { id := "c1", updatedAt := some "t0" } wCol1 FetchErr.notFound
    rfl (by decide) (by decide) (by decide) rfl (Or.inr rfl)
  rw [h]
  decide

/-- Claim C5: after a `collections.delete` event, every cached document
that was in the deleted collection has a counterpart with the same id
that is detached (`collectionId = none`) when it was never published and
soft-deleted (`deletedAt` stamped with the handler's timestamp, hence
non-null) when it was published; no membership scoped to the collection
remains; and the collection record is gone from the collection store. -/
theorem collections_delete_cascade (now modelId : String) (st : State) :
    (∀ d ∈ st.documents, d.collectionId = some modelId →
      ∃ d0, d0 ∈ (collectionsDelete now modelId st).documents ∧ d0.id = d.id ∧
        ((d.publishedAt = none ∧ d0.collectionId = none) ∨
         (d.publishedAt ≠ none ∧ d0.deletedAt = some now)))
    ∧ (∀ m ∈ (collectionsDelete now modelId st).memberships, m.collectionId ≠ modelId)
    ∧ getById Collection.id modelId (collectionsDelete now modelId st).collections = none := by
  have hdocs : (collectionsDelete now modelId st).documents = st.documents.map
      (fun x => if x.collectionId = some modelId then
        (if x.publishedAt = none then { x with collectionId := none }
         else { x with deletedAt := some now }) else x) := rfl
  refine ⟨?_, ?_, ?_⟩
  · intro d hd hcid
    by_cases hp : d.publishedAt = none
    · exact ⟨{ d with collectionId := none },
        by rw [hdocs]; exact List.mem_map.mpr ⟨d, hd, by simp [hcid, hp]⟩,
        rfl, Or.inl ⟨hp, rfl⟩⟩
    · exact ⟨{ d with deletedAt := some now },
        by rw [hdocs]; exact List.mem_map.mpr ⟨d, hd, by simp [hcid, hp]⟩,
        rfl, Or.inr ⟨hp, rfl⟩⟩
  · intro m hm
    have hmem : (collectionsDelete now modelId st).memberships =
        st.memberships.filter (fun x => x.collectionId != modelId) := rfl
    rw [hmem] at hm
    simpa using (List.mem_filter.mp hm).2
  · exact getById_removeById Collection.id modelId st.collections

/-- A concrete unpublished draft in collection c1, used by witnesses. -/
def wDraft : Document := ⟨"d1", "t1", "A", some "c1", none, none, []⟩

/-- A concrete published document in collection c1, used by witnesses. -/
def wPub : Document := ⟨"d2", "t1", "B", some "c1", some "p1", none, []⟩

/-- A concrete cache with a draft and a published document in collection
c1, the collection record, and memberships in c1 and c2. -/
def wStateDel : State :=
  { emptyState with
    documents := [wDraft, wPub]
    collections := [wCol1]
    memberships := [⟨"m1", "u1", "c1"⟩, ⟨"m2", "u1", "c2"⟩] }

/-- Witness for C5: deleting collection c1 of the concrete cache detaches
the draft, soft-deletes the published document, keeps only the membership
scoped to another collection, and drops the collection record. -/
theorem collections_delete_cascade_witness :
    (∃ d0, d0 ∈ (collectionsDelete "T0" "c1" wStateDel).documents ∧ d0.id = wDraft.id ∧
      ((wDraft.publishedAt = none ∧ d0.collectionId = none) ∨
       (wDraft.publishedAt ≠ none ∧ d0.deletedAt = some "T0")))
    ∧ (∃ d0, d0 ∈ (collectionsDelete "T0" "c1" wStateDel).documents ∧ d0.id = wPub.id ∧
      ((wPub.publishedAt = none ∧ d0.collectionId = none) ∨
       (wPub.publishedAt ≠ none ∧ d0.deletedAt = some "T0")))
    ∧ Membership.collectionId ⟨"m2", "u1", "c2"⟩ ≠ "c1"
    ∧ getById Collection.id "c1" (collectionsDelete "T0" "c1" wStateDel).collections = none :=
  ⟨(collections_delete_cascade "T0" "c1" wStateDel).1 wDraft (by decide) (by decide),
   (collections_delete_cascade "T0" "c1" wStateDel).1 wPub (by decide) (by decide),
   (collections_delete_cascade "T0" "c1" wStateDel).2.1 ⟨"m2", "u1", "c2"⟩ (by decide),
   (collections_delete_cascade "T0" "c1" wStateDel).2.2⟩

/-- The state of `documents.remove_user` just before its policy check:
membership removed and, for the current session's user, child policies
evicted. -/
def docRemoveUserMid (cu : Option String) (ev : UserMembershipEvent) (st : State) : State :=
  let st1 := { st with userMemberships := removeById UserMembership.id ev.id st.userMemberships }
  if some ev.userId = cu then
    match getById Document.id ev.documentId st1.documents with
    | some doc =>
      { st1 with policies := st1.policies.filter (fun p => !(doc.childDocuments.contains p.id)) }
    | none => st1
  else st1

theorem documentsRemoveUser_eq (cu : Option String) (ev : UserMembershipEvent) (st : State) :
    documentsRemoveUser cu ev st =
      (match getById Policy.id ev.documentId (docRemoveUserMid cu ev st).policies with
       | some p =>
         if p.abilitiesRead = some false then
           { docRemoveUserMid cu ev st with
             documents := removeById Document.id ev.documentId (docRemoveUserMid cu ev st).documents }
         else docRemoveUserMid cu ev st
       | none => docRemoveUserMid cu ev st) := rfl

theorem docRemoveUserMid_documents (cu : Option String) (ev : UserMembershipEvent) (st : State) :
    (docRemoveUserMid cu ev st).documents = st.documents := by
  simp only [docRemoveUserMid]
  by_cases hcu : some ev.userId = cu
  · simp only [if_pos hcu]
    cases hdoc : getById Document.id ev.documentId st.documents <;> simp [hdoc]
  · simp only [if_neg hcu]

theorem docRemoveUserMid_policies_sub (cu : Option String) (ev : UserMembershipEvent) (st : State)
    (p : Policy) (hp : p ∈ (docRemoveUserMid cu ev st).policies) : p ∈ st.policies := by
  simp only [docRemoveUserMid] at hp
  by_cases hcu : some ev.userId = cu
  · simp only [if_pos hcu] at hp
    cases hdoc : getById Document.id ev.documentId st.documents with
    | none => simp only [hdoc] at hp; exact hp
    | some doc => simp only [hdoc] at hp; exact (List.mem_filter.mp hp).1
  · simp only [if_neg hcu] at hp; exact hp

/-- Claim C6: the `documents.remove_user` and `collections.remove_user`
handlers remove the cached document (collection) record only when a policy
is cached for its id with `read` ability exactly `false`; in particular
when no policy with that id holds `read = false` — and a fortiori when no
policy is cached at all — the record is retained. The last two conjuncts
give the removal case: a cached policy denying `read` makes the handler
remove the record. -/
theorem remove_user_requires_cached_policy_denial :
    (∀ (cu : Option String) (ev : UserMembershipEvent) (st : State),
      (∀ p ∈ st.policies, p.id = ev.documentId → p.abilitiesRead ≠ some false) →
      (documentsRemoveUser cu ev st).documents = st.documents)
    ∧ (∀ (ev : MembershipEvent) (st : State),
      (∀ p ∈ st.policies, p.id = ev.collectionId → p.abilitiesRead ≠ some false) →
      (collectionsRemoveUser ev st).collections = st.collections)
    ∧ (∀ (cu : Option String) (ev : UserMembershipEvent) (st : State) (p : Policy),
      some ev.userId ≠ cu →
      getById Policy.id ev.documentId st.policies = some p →
      p.abilitiesRead = some false →
      (documentsRemoveUser cu ev st).documents = removeById Document.id ev.documentId st.documents)
    ∧ (∀ (ev : MembershipEvent) (st : State) (p : Policy),
      getById Policy.id ev.collectionId st.policies = some p →
      p.abilitiesRead = some false →
      (collectionsRemoveUser ev st).collections = removeById Collection.id ev.collectionId st.collections) := by
  refine ⟨?_, ?_, ?_, ?_⟩
  · intro cu ev st h
    rw [documentsRemoveUser_eq]
    cases hg : getById Policy.id ev.documentId (docRemoveUserMid cu ev st).policies with
    | none => exact docRemoveUserMid_documents cu ev st
    | some p =>
      have hmk := getById_mem_and_key Policy.id ev.documentId _ p hg
      have hne := h p (docRemoveUserMid_policies_sub cu ev st p hmk.1) hmk.2
      simp only [if_neg hne]
      exact docRemoveUserMid_documents cu ev st
  · intro ev st h
    rw [collectionsRemoveUser]
    cases hg : getById Policy.id ev.collectionId st.policies with
    | none => rfl
    | some p =>
      have hmk := getById_mem_and_key Policy.id ev.collectionId st.policies p hg
      have hne := h p hmk.1 hmk.2
      simp [hne]
  · intro cu ev st p hcu hg hread
    rw [documentsRemoveUser_eq]
    have hmid : docRemoveUserMid cu ev st =
        { st with userMemberships := removeById UserMembership.id ev.id st.userMemberships } := by
      rw [docRemoveUserMid, if_neg hcu]
    rw [hmid]
    simp [hg, hread]
  · intro ev st p hg hread
    rw [collectionsRemoveUser]
    simp [hg, hread]

/-- A concrete cache with a cached document, a cached collection, and
policies denying `read` on both, used by the C6 witness. -/
def wStateC6 : State :=
  { emptyState with
    documents := [wDoc1]
    collections := [wCol1]
    policies := [⟨"d1", some false⟩, ⟨"c1", some false⟩] }

/-- Witness for C6: with no policies cached, both records are retained;
with a cached policy whose `read` is `false` (and the removed user not the
current session), the records are removed. -/
theorem remove_user_requires_cached_policy_denial_witness :
    (documentsRemoveUser (some "me") ⟨"um1", "u1", "d1"⟩ wStateD1).documents = wStateD1.documents
    ∧ (collectionsRemoveUser ⟨"m1", "u1", "c1"⟩ wStateC1).collections = wStateC1.collections
    ∧ (documentsRemoveUser (some "me") ⟨"um1", "u1", "d1"⟩ wStateC6).documents =
        removeById Document.id "d1" wStateC6.documents
    ∧ (collectionsRemoveUser ⟨"m1", "u1", "c1"⟩ wStateC6).collections =
        removeById Collection.id "c1" wStateC6.collections :=
  ⟨remove_user_requires_cached_policy_denial.1 (some "me") ⟨"um1", "u1", "d1"⟩ wStateD1
     (by decide),
   remove_user_requires_cached_policy_denial.2.1 ⟨"m1", "u1", "c1"⟩ wStateC1 (by decide),
   remove_user_requires_cached_policy_denial.2.2.1 (some "me") ⟨"um1", "u1", "d1"⟩ wStateC6
     ⟨"d1", some false⟩ (by decide) (by decide) (by decide),
   remove_user_requires_cached_policy_denial.2.2.2 ⟨"m1", "u1", "c1"⟩ wStateC6
     ⟨"c1", some false⟩ (by decide) (by decide)⟩

/-- Counterexample for C7 as stated: when a comment with the same id is
already cached, `comments.create` followed by `comments.delete` does not
leave the store as if the entity had never been added — the pre-existing
record is destroyed. -/
theorem create_delete_roundtrip_cex :
    commentsDelete "c1"
      (commentsCreate ⟨"c1", "new"⟩ { emptyState with comments := [⟨"c1", "old"⟩] }) ≠
      { emptyState with comments := [⟨"c1", "old"⟩] } := by
  decide

/-- Claim C7 (amended): for every entity type with both create and delete
handlers (comments, groups, pins, stars, subscriptions, collections) and
every id not already present in the corresponding store, applying the
create handler then the delete handler for that id leaves the entity's
store — and for all types except collections the whole cache — in the same
state as if the entity had never been added. -/
theorem create_delete_roundtrip_fresh (st : State) (now : String)
    (c : CommentRec) (hc : getById CommentRec.id c.id st.comments = none)
    (g : Group) (hg : getById Group.id g.id st.groups = none)
    (p : Pin) (hp : getById Pin.id p.id st.pins = none)
    (s : Star) (hs : getById Star.id s.id st.stars = none)
    (u : Subscription) (hu : getById Subscription.id u.id st.subscriptions = none)
    (k : Collection) (hk : getById Collection.id k.id st.collections = none) :
    commentsDelete c.id (commentsCreate c st) = st
    ∧ groupsDelete g.id (groupsCreate g st) = st
    ∧ pinsDelete p.id (pinsCreate p st) = st
    ∧ starsDelete s.id (starsCreate s st) = st
    ∧ subscriptionsDelete u.id (subscriptionsCreate u st) = st
    ∧ (collectionsDelete now k.id (collectionsCreate k st)).collections = st.collections := by
  refine ⟨?_, ?_, ?_, ?_, ?_, ?_⟩
  · simp [commentsDelete, commentsCreate, removeById_addById_fresh CommentRec.id c st.comments hc]
  · simp [groupsDelete, groupsCreate, removeById_addById_fresh Group.id g st.groups hg]
  · simp [pinsDelete, pinsCreate, removeById_addById_fresh Pin.id p st.pins hp]
  · simp [starsDelete, starsCreate, removeById_addById_fresh Star.id s st.stars hs]
  · simp [subscriptionsDelete, subscriptionsCreate,
      removeById_addById_fresh Subscription.id u st.subscriptions hu]
  · simp [collectionsDelete, collectionsCreate,
      removeById_addById_fresh Collection.id k st.collections hk]

/-- Witness for the amended C7 on a non-empty concrete cache and fresh
ids for all six entity types. -/
theorem create_delete_roundtrip_fresh_witness :
    commentsDelete "x1" (commentsCreate ⟨"x1", "d"⟩ wStateDel) = wStateDel
    ∧ groupsDelete "x2" (groupsCreate ⟨"x2", "g"⟩ wStateDel) = wStateDel
    ∧ pinsDelete "x3" (pinsCreate ⟨"x3", "d1"⟩ wStateDel) = wStateDel
    ∧ starsDelete "x4" (starsCreate ⟨"x4", "d1"⟩ wStateDel) = wStateDel
    ∧ subscriptionsDelete "x5" (subscriptionsCreate ⟨"x5", "d1"⟩ wStateDel) = wStateDel
    ∧ (collectionsDelete "T0" "x6" (collectionsCreate ⟨"x6", "t0", []⟩ wStateDel)).collections =
        wStateDel.collections :=
  create_delete_roundtrip_fresh wStateDel "T0"
    ⟨"x1", "d"⟩ (by decide) ⟨"x2", "g"⟩ (by decide) ⟨"x3", "d1"⟩ (by decide)
    ⟨"x4", "d1"⟩ (by decide) ⟨"x5", "d1"⟩ (by decide) ⟨"x6", "t0", []⟩ (by decide)

/-- Claim C8: on an `authenticated` signal (with a live socket reference)
the connection's `authenticated` flag becomes true; on an `unauthorized`
signal the flag becomes false, an error notice carrying the error's
message is appended to the user-visible notices, and the error itself is
re-raised. -/
theorem auth_signal_handlers (cs : ConnState) (s : Socket) (err : JsError)
    (h : cs.socket = some s) :
    (onAuthenticated cs).socket = some { authenticated := true }
    ∧ (onUnauthorized err cs).conn.socket = some { authenticated := false }
    ∧ (onUnauthorized err cs).conn.toasts = cs.toasts ++ [err.message]
    ∧ (onUnauthorized err cs).raised = some err := by
  refine ⟨?_, ?_, ?_, ?_⟩ <;> simp [onAuthenticated, onUnauthorized, h]

/-- Witness for C8 at a concrete connection state with a live socket. -/
theorem auth_signal_handlers_witness :
    (onAuthenticated { socket := some { authenticated := false }, toasts := [] }).socket =
      some { authenticated := true }
    ∧ (onUnauthorized ⟨"denied"⟩
        { socket := some { authenticated := false }, toasts := [] }).conn.socket =
      some { authenticated := false }
    ∧ (onUnauthorized ⟨"denied"⟩
        { socket := some { authenticated := false }, toasts := [] }).conn.toasts = [] ++ ["denied"]
    ∧ (onUnauthorized ⟨"denied"⟩
        { socket := some { authenticated := false }, toasts := [] }).raised = some ⟨"denied"⟩ :=
  auth_signal_handlers { socket := some { authenticated := false }, toasts := [] }
    { authenticated := false } ⟨"denied"⟩ rfl

/-- Claim C10: `Comment.resolve` fails exactly when the comment is already
resolved or is a reply, and otherwise saves the comment with the resolving
user recorded in `resolvedById` and `resolvedBy`; `Comment.unresolve`
fails exactly when the comment is not resolved, and otherwise saves the
comment with both resolution fields cleared. -/
theorem comment_resolve_unresolve_guards (c : Comment) (u : User) :
    (isErr (Comment.resolve c u) = true ↔
      (c.resolvedById.isSome = true ∨ c.parentCommentId.isSome = true))
    ∧ (c.resolvedById = none → c.parentCommentId = none →
        Comment.resolve c u = Except.ok { c with resolvedById := some u.id, resolvedBy := some u })
    ∧ (isErr (Comment.unresolve c) = true ↔ c.resolvedById = none)
    ∧ (c.resolvedById ≠ none →
        Comment.unresolve c = Except.ok { c with resolvedById := none, resolvedBy := none }) := by
  refine ⟨?_, ?_, ?_, ?_⟩
  · cases hr : c.resolvedById <;> cases hp : c.parentCommentId <;>
      simp [Comment.resolve, isErr, hr, hp]
  · intro hr hp
    rw [Comment.resolve]
    simp [hr, hp]
  · cases hr : c.resolvedById <;> simp [Comment.unresolve, isErr, hr]
  · intro hr
    rw [Comment.unresolve]
    simp [Option.isNone_iff_eq_none, hr]

/-- Witness for C10: a concrete resolved reply fails to resolve again, a
concrete unresolved root comment resolves recording the user, and the
resolved comment unresolves back to cleared fields. -/
theorem comment_resolve_unresolve_guards_witness :
    isErr (Comment.resolve ⟨"k1", some "u1", some ⟨"u1"⟩, none⟩ ⟨"u2"⟩) = true
    ∧ Comment.resolve ⟨"k2", none, none, none⟩ ⟨"u2"⟩ =
        Except.ok ⟨"k2", some "u2", some ⟨"u2"⟩, none⟩
    ∧ isErr (Comment.unresolve ⟨"k3", none, none, none⟩) = true
    ∧ Comment.unresolve ⟨"k1", some "u1", some ⟨"u1"⟩, none⟩ =
        Except.ok ⟨"k1", none, none, none⟩ :=
  ⟨(comment_resolve_unresolve_guards ⟨"k1", some "u1", some ⟨"u1"⟩, none⟩ ⟨"u2"⟩).1.mpr
     (Or.inl rfl),
   (comment_resolve_unresolve_guards ⟨"k2", none, none, none⟩ ⟨"u2"⟩).2.1 rfl rfl,
   (comment_resolve_unresolve_guards ⟨"k3", none, none, none⟩ ⟨"u2"⟩).2.2.1.mpr rfl,
   (comment_resolve_unresolve_guards ⟨"k1", some "u1", some ⟨"u1"⟩, none⟩ ⟨"u2"⟩).2.2.2
     (by decide)⟩

end Outline
